import Mathlib

/-!
Shallow embedding of the Porter-API trip dispatch / wallet core
(`src/drivers/drivers.service.ts`, `src/owner/owner.service.ts`).

Conventions:
* JavaScript numbers are modelled as `Rat`; `Math.round` becomes
  `jsRound q = (q + 1/2).floor` (round half up, the behaviour of
  `Math.round` on the non-negative values that occur here).
* Mongoose documents become Lean structures; the database becomes a
  `World` structure holding the driver collection (association list),
  a single booking (`Option Booking`, `none` = no such document),
  the pricing collection and the withdrawal collection.
* Each service method becomes `World → World × Except Err α`: the
  returned `World` reflects every mutation performed before a `throw`,
  so aborted calls genuinely leave the state they produced.
* External collaborators (Google-maps distance lookup, haversine) are
  passed in as function parameters, mirroring §6 of the design notes.
-/

namespace Porter

/-- `BookingStatus` as used by the service code (`DRIVER_NOTIFIED` is the
"awaiting driver" stage). -/
inductive BookingStatus where
  | DRIVER_NOTIFIED
  | DRIVER_ASSIGNED
  | TRIP_STARTED
  | TRIP_COMPLETED
  | CANCELLED
deriving DecidableEq, Repr

inductive PaymentMethod where
  | ONLINE
  | CASH
  | UNSET
deriving DecidableEq, Repr

inductive PaymentStatus where
  | NONE
  | SUCCESS
deriving DecidableEq, Repr

inductive WithdrawStatus where
  | PENDING
  | APPROVED
  | REJECTED
deriving DecidableEq, Repr

structure LatLng where
  lat : Rat
  lng : Rat
deriving DecidableEq, Repr

structure BankDetails where
  bankName : String
  accountHolderName : String
  bankAccountNumber : String
  ifscCode : String
deriving DecidableEq, Repr

/-- A driver document (the fields the dispatch/wallet core touches). -/
structure Driver where
  isOnline : Bool
  isAvailable : Bool
  isOnTrip : Bool
  walletBalance : Rat
  bankDetails : Option BankDetails
  currentLocation : Option LatLng
deriving DecidableEq, Repr

/-- A booking document. -/
structure Booking where
  id : Nat
  status : BookingStatus
  driverId : Option Nat
  pickupLocation : LatLng
  dropLocation : LatLng
  vehicleType : String
  distanceKm : Rat
  pickupCharge : Option Rat
  driverToPickupDistanceKm : Option Rat
  driverToPickupEtaMin : Option Rat
  pickupToDropEtaMin : Option Rat
  remainingDistanceKm : Option Rat
  tripStartTime : Option Nat
  tripEndTime : Option Nat
  arrivedAtPickupAt : Option Nat
  fareFinalizedAt : Option Nat
  finalFare : Option Int
  driverEarning : Option Int
  platformCommission : Option Int
  actualDurationMin : Option Int
  paymentMethod : PaymentMethod
  paymentStatus : PaymentStatus
  rejectedDrivers : List Nat
deriving DecidableEq, Repr

/-- A pricing document: one fare schedule for a vehicle type. -/
structure Pricing where
  vehicleType : String
  isActive : Bool
  baseFare : Rat
  perKmRate : Rat
  commissionPercent : Option Rat
deriving DecidableEq, Repr

/-- A withdrawal document. -/
structure Withdraw where
  id : Nat
  driverId : Nat
  amount : Rat
  status : WithdrawStatus
deriving DecidableEq, Repr

/-- The typed errors thrown by the embedded service methods. -/
inductive Err where
  | BookingNotFound
  | BookingUnavailable
  | DriverNotAvailable
  | DriverNotFound
  | UpdateLocationFirst
  | InvalidTrip
  | PricingNotFound
  | AddBankFirst
  | InsufficientBalance
  | NoPendingWithdrawal
  | TypeErr
deriving DecidableEq, Repr

/-- The database state shared by the service methods. -/
structure World where
  drivers : List (Nat × Driver)
  booking : Option Booking
  pricings : List Pricing
  withdrawals : List Withdraw
  nextWithdrawId : Nat
deriving DecidableEq, Repr

/-- `driverModel.findById`. -/
def findD (l : List (Nat × Driver)) (driverId : Nat) : Option Driver :=
  (l.find? (fun p => p.1 = driverId)).map Prod.snd

def findDriver (w : World) (driverId : Nat) : Option Driver :=
  findD w.drivers driverId

/-- `driverModel.findByIdAndUpdate` / loading then `save()`: rewrite the
matching driver document in place (no-op when the id is absent, as with
mongoose). -/
def updD (l : List (Nat × Driver)) (driverId : Nat) (f : Driver → Driver) :
    List (Nat × Driver) :=
  l.map (fun p => if p.1 = driverId then (p.1, f p.2) else p)

def updateDriver (w : World) (driverId : Nat) (f : Driver → Driver) : World :=
  { w with drivers := updD w.drivers driverId f }

/-- `Math.round` on our rational model of JS numbers: floor of `q + 1/2`,
i.e. round half up. -/
def jsRound (q : Rat) : Int := ⌊q + 1/2⌋

/-- `calculatePickupCharge` (drivers.service.ts, lines 806–811). -/
def calculatePickupCharge (distanceKm : Rat) : Rat :=
  if distanceKm ≤ 3 then 10
  else if distanceKm ≤ 5 then 20
  else if distanceKm ≤ 50 then 40
  else 50

structure FareBreakdown where
  finalFare : Int
  commissionAmount : Int
  driverEarning : Int
deriving DecidableEq, Repr

/-- The fare computation inside `completeTrip` (drivers.service.ts,
lines 340–354).  `pricing.commissionPercent || 20` treats every falsy
value — absent **or zero** — as "use 20". -/
def computeFare (pricing : Pricing) (tripDistanceKm pickupCharge : Rat) :
    FareBreakdown :=
  let distanceFare := tripDistanceKm * pricing.perKmRate
  let finalFare := jsRound (pricing.baseFare + distanceFare + pickupCharge)
  let commissionPercent :=
    match pricing.commissionPercent with
    | none => (20 : Rat)
    | some c => if c = 0 then 20 else c
  let commissionAmount := jsRound ((finalFare * commissionPercent) / 100)
  { finalFare := finalFare
    commissionAmount := commissionAmount
    driverEarning := finalFare - commissionAmount }

/-- External distance lookup `getDistanceAndDuration(lat1,lng1,lat2,lng2)`
returning `(distanceKm, durationMin)`. -/
abbrev MapsFn := Rat → Rat → Rat → Rat → Rat × Rat

/-- External haversine distance `haversineDistance(lat1,lng1,lat2,lng2)`. -/
abbrev HavFn := Rat → Rat → Rat → Rat → Rat

/-- `acceptBooking` (drivers.service.ts, lines 221–271): load the booking,
check its status in application code, load the driver, check availability,
then unconditionally save the assignment and mark the driver busy. -/
def acceptBooking (maps : MapsFn) (driverId bookingId : Nat) (w : World) :
    World × Except Err Unit :=
  match w.booking with
  | none => (w, .error .BookingNotFound)
  | some booking =>
    if booking.id ≠ bookingId then (w, .error .BookingNotFound)
    else if booking.status ≠ .DRIVER_NOTIFIED then (w, .error .BookingUnavailable)
    else
      match findDriver w driverId with
      | none => (w, .error .DriverNotAvailable)
      | some driver =>
        if ¬ driver.isAvailable then (w, .error .DriverNotAvailable)
        else
          match driver.currentLocation with
          | none => (w, .error .TypeErr)
          | some loc =>
            let (distanceKm, durationMin) :=
              maps loc.lat loc.lng booking.pickupLocation.lat booking.pickupLocation.lng
            let pickupCharge := calculatePickupCharge distanceKm
            let b1 := { booking with
              driverId := some driverId
              status := .DRIVER_ASSIGNED
              driverToPickupDistanceKm := some distanceKm
              driverToPickupEtaMin := some durationMin
              pickupCharge := some pickupCharge }
            let w1 := { w with booking := some b1 }
            let w2 := updateDriver w1 driverId
              (fun d => { d with isAvailable := false, isOnTrip := true })
            (w2, .ok ())

/-- `rejectBooking` (drivers.service.ts, lines 274–281): a bare
`updateOne` with `$addToSet`; no existence check, always returns the
message `"Rejected"`. -/
def rejectBooking (driverId bookingId : Nat) (w : World) : World × String :=
  let w1 :=
    match w.booking with
    | some b =>
      if b.id = bookingId then
        let newSet :=
          if driverId ∈ b.rejectedDrivers then b.rejectedDrivers
          else b.rejectedDrivers ++ [driverId]
        { w with booking := some { b with rejectedDrivers := newSet } }
      else w
    | none => w
  (w1, "Rejected")

/-- `startTrip` (drivers.service.ts, lines 284–318): a conditional
`findOneAndUpdate` keyed on id, driver and `DRIVER_ASSIGNED` status. -/
def startTrip (maps : MapsFn) (now driverId bookingId : Nat) (w : World) :
    World × Except Err Unit :=
  match w.booking with
  | none => (w, .error .InvalidTrip)
  | some b =>
    if b.id = bookingId ∧ b.driverId = some driverId ∧ b.status = .DRIVER_ASSIGNED then
      let (distanceKm, durationMin) :=
        maps b.pickupLocation.lat b.pickupLocation.lng
             b.dropLocation.lat b.dropLocation.lng
      let b1 := { b with
        status := .TRIP_STARTED
        tripStartTime := some now
        pickupToDropEtaMin := some durationMin
        remainingDistanceKm := some distanceKm }
      ({ w with booking := some b1 }, .ok ())
    else (w, .error .InvalidTrip)

/-- `pricingModel.findOne({ vehicleType, isActive: true })`. -/
def activePricing (w : World) (vehicleType : String) : Option Pricing :=
  w.pricings.find? (fun p => decide (p.vehicleType = vehicleType ∧ p.isActive = true))

/-- `completeTrip` (drivers.service.ts, lines 321–408): precondition
lookup on `(id, driverId, TRIP_STARTED)`, pricing lookup (abort with
`PricingNotFound` before any mutation), fare computation, booking
finalisation, driver-flag reset and wallet credit. -/
def completeTrip (now driverId bookingId : Nat) (w : World) :
    World × Except Err FareBreakdown :=
  match w.booking with
  | none => (w, .error .InvalidTrip)
  | some b =>
    if b.id = bookingId ∧ b.driverId = some driverId ∧ b.status = .TRIP_STARTED then
      match activePricing w b.vehicleType with
      | none => (w, .error .PricingNotFound)
      | some pricing =>
        let fb := computeFare pricing b.distanceKm (b.pickupCharge.getD 0)
        let b1 := { b with
          status := .TRIP_COMPLETED
          tripEndTime := some now
          finalFare := some fb.finalFare
          driverEarning := some fb.driverEarning
          fareFinalizedAt := some now
          platformCommission := some fb.commissionAmount
          actualDurationMin :=
            match b.tripStartTime with
            | some t0 => some ⌈((now : Rat) - (t0 : Rat)) / 60000⌉
            | none => b.actualDurationMin
          paymentMethod := if b.paymentMethod = .ONLINE then .ONLINE else .CASH
          paymentStatus := .SUCCESS }
        let w1 := { w with booking := some b1 }
        let w2 := updateDriver w1 driverId
          (fun d => { d with isAvailable := true, isOnTrip := false })
        let w3 := updateDriver w2 driverId
          (fun d => { d with walletBalance := d.walletBalance + (fb.driverEarning : Rat) })
        (w3, .ok fb)
    else (w, .error .InvalidTrip)

/-- `updateOnlineStatus` (drivers.service.ts, lines 182–210): going online
requires a stored location; sets `isOnline` and `isAvailable` to the
requested flag, leaving `isOnTrip` untouched. -/
def updateOnlineStatus (driverId : Nat) (isOnline : Bool) (w : World) :
    World × Except Err Unit :=
  match findDriver w driverId with
  | none => (w, .error .DriverNotFound)
  | some d =>
    if isOnline = true ∧ d.currentLocation = none then
      (w, .error .UpdateLocationFirst)
    else
      (updateDriver w driverId
        (fun d => { d with isOnline := isOnline, isAvailable := isOnline }), .ok ())

/-- `logoutDriver` (drivers.service.ts, lines 794–803). -/
def logoutDriver (driverId : Nat) (w : World) : World × Except Err Unit :=
  (updateDriver w driverId
    (fun d => { d with isOnline := false, isAvailable := false }), .ok ())

/-- `updateLocation` (drivers.service.ts, lines 412–461): overwrite the
driver's position, then — when the driver has an active booking and the
haversine distance to the pickup point is at most 0.05 km and
`arrivedAtPickupAt` is still unset — stamp `arrivedAtPickupAt`. -/
def updateLocation (hav : HavFn) (driverId : Nat) (lat lng : Rat) (now : Nat)
    (w : World) : World × Except Err Unit :=
  let w1 := updateDriver w driverId
    (fun d => { d with currentLocation := some ⟨lat, lng⟩ })
  match w1.booking with
  | none => (w1, .ok ())
  | some b =>
    if b.driverId = some driverId ∧
        (b.status = .DRIVER_ASSIGNED ∨ b.status = .TRIP_STARTED) then
      let distanceToPickup := hav lat lng b.pickupLocation.lat b.pickupLocation.lng
      if distanceToPickup ≤ 5/100 ∧ b.arrivedAtPickupAt = none then
        ({ w1 with booking := some { b with arrivedAtPickupAt := some now } }, .ok ())
      else (w1, .ok ())
    else (w1, .ok ())

/-- `requestWithdrawal` (drivers.service.ts, lines 560–586): requires bank
details, checks `walletBalance < amount`, then debits the wallet and
creates a `PENDING` withdrawal for the requested amount. -/
def requestWithdrawal (driverId : Nat) (amount : Rat) (w : World) :
    World × Except Err Nat :=
  match findDriver w driverId with
  | none => (w, .error .AddBankFirst)
  | some d =>
    match d.bankDetails with
    | none => (w, .error .AddBankFirst)
    | some bd =>
      if bd.bankAccountNumber = "" then (w, .error .AddBankFirst)
      else if d.walletBalance < amount then (w, .error .InsufficientBalance)
      else
        let w1 := updateDriver w driverId
          (fun d => { d with walletBalance := d.walletBalance - amount })
        let wd : Withdraw :=
          { id := w.nextWithdrawId, driverId := driverId, amount := amount,
            status := .PENDING }
        ({ w1 with withdrawals := w1.withdrawals ++ [wd],
                   nextWithdrawId := w.nextWithdrawId + 1 }, .ok wd.id)

/-- `approveWithdrawal` (owner.service.ts, lines 248–275): find the pending
withdrawal, re-check the balance, debit the wallet (a second debit — the
request already debited) and mark the record `APPROVED`. -/
def approveWithdrawal (withdrawalId : Nat) (w : World) : World × Except Err Unit :=
  match w.withdrawals.find?
      (fun x => decide (x.id = withdrawalId ∧ x.status = .PENDING)) with
  | none => (w, .error .NoPendingWithdrawal)
  | some wd =>
    match findDriver w wd.driverId with
    | none => (w, .error .DriverNotFound)
    | some d =>
      if d.walletBalance < wd.amount then (w, .error .InsufficientBalance)
      else
        let w1 := updateDriver w wd.driverId
          (fun d => { d with walletBalance := d.walletBalance - wd.amount })
        let resolved := w1.withdrawals.map
          (fun x => if x.id = wd.id then { x with status := WithdrawStatus.APPROVED } else x)
        ({ w1 with withdrawals := resolved }, .ok ())

/-- `rejectWithdrawal` (owner.service.ts, lines 278–295): find the pending
withdrawal and mark it `REJECTED`; performs no wallet change. -/
def rejectWithdrawal (withdrawalId : Nat) (w : World) : World × Except Err Unit :=
  match w.withdrawals.find?
      (fun x => decide (x.id = withdrawalId ∧ x.status = .PENDING)) with
  | none => (w, .error .NoPendingWithdrawal)
  | some wd =>
    let resolved := w.withdrawals.map
      (fun x => if x.id = wd.id then { x with status := WithdrawStatus.REJECTED } else x)
    ({ w with withdrawals := resolved }, .ok ())

/-- Sum of the amounts of `APPROVED` withdrawals in the ledger. -/
def approvedSum (w : World) : Rat :=
  w.withdrawals.foldr
    (fun x s => match x.status with | .APPROVED => x.amount + s | _ => s) 0

/-- Sum of the amounts of still-`PENDING` withdrawals in the ledger. -/
def pendingSum (w : World) : Rat :=
  w.withdrawals.foldr
    (fun x s => match x.status with | .PENDING => x.amount + s | _ => s) 0

/-! ### Interleaved execution of `acceptBooking`

`acceptBooking` is `findById` → application-level checks → `save()` →
`findByIdAndUpdate`; every `await` is a yield point, and neither the
`save` nor the driver update re-checks the status.  We split the method
at those yield points into atomic sub-steps and run two concurrent
invocations under an explicit interleaving schedule. -/

inductive AcceptPhase where
  /-- about to run the reads and precondition checks -/
  | toCheck
  /-- checks passed; distance lookup done; about to `save()` the
  assignment (the snapshot of the lookup result travels with the thread) -/
  | toSave (distanceKm durationMin : Rat)
  /-- booking saved; about to mark the driver busy -/
  | toMark
  /-- returned -/
  | finished (r : Except Err Unit)

/-- One in-flight `acceptBooking` invocation. -/
structure AThread where
  driverId : Nat
  bookingId : Nat
  phase : AcceptPhase

/-- One atomic sub-step of `acceptBooking`, against the shared `World`. -/
def acceptStep (maps : MapsFn) (w : World) (t : AThread) : World × AThread :=
  match t.phase with
  | .toCheck =>
    match w.booking with
    | none => (w, { t with phase := .finished (.error .BookingNotFound) })
    | some b =>
      if b.id ≠ t.bookingId then
        (w, { t with phase := .finished (.error .BookingNotFound) })
      else if b.status ≠ .DRIVER_NOTIFIED then
        (w, { t with phase := .finished (.error .BookingUnavailable) })
      else
        match findDriver w t.driverId with
        | none => (w, { t with phase := .finished (.error .DriverNotAvailable) })
        | some d =>
          if ¬ d.isAvailable then
            (w, { t with phase := .finished (.error .DriverNotAvailable) })
          else
            match d.currentLocation with
            | none => (w, { t with phase := .finished (.error .TypeErr) })
            | some loc =>
              let (dk, dm) :=
                maps loc.lat loc.lng b.pickupLocation.lat b.pickupLocation.lng
              (w, { t with phase := .toSave dk dm })
  | .toSave dk dm =>
    match w.booking with
    | some b =>
      let b1 := { b with
        driverId := some t.driverId
        status := BookingStatus.DRIVER_ASSIGNED
        driverToPickupDistanceKm := some dk
        driverToPickupEtaMin := some dm
        pickupCharge := some (calculatePickupCharge dk) }
      ({ w with booking := some b1 }, { t with phase := .toMark })
    | none => (w, { t with phase := .toMark })
  | .toMark =>
    (updateDriver w t.driverId
      (fun d => { d with isAvailable := false, isOnTrip := true }),
     { t with phase := .finished (.ok ()) })
  | .finished _ => (w, t)

/-- Two concurrent `acceptBooking` invocations over a shared `World`. -/
structure CState where
  w : World
  t1 : AThread
  t2 : AThread

/-- Run one sub-step of thread 1 (`true`) or thread 2 (`false`). -/
def schedStep (maps : MapsFn) (s : CState) (i : Bool) : CState :=
  if i then
    let (w', t') := acceptStep maps s.w s.t1
    { s with w := w', t1 := t' }
  else
    let (w', t') := acceptStep maps s.w s.t2
    { s with w := w', t2 := t' }

/-- Run an interleaving schedule to completion. -/
def runSched (maps : MapsFn) : List Bool → CState → CState
  | [], s => s
  | i :: rest, s => runSched maps rest (schedStep maps s i)

/-! ### Driver-flag operations (for the availability invariant) -/

/-- The driver-mutating operations named by the availability-flag
invariant. -/
inductive DriverOp where
  | updateOnline (driverId : Nat) (isOnline : Bool)
  | accept (driverId bookingId : Nat)
  | complete (now driverId bookingId : Nat)
  | logout (driverId : Nat)
deriving DecidableEq, Repr

/-- The state reached by one operation (errors leave the state the
operation produced before throwing, which for these four is the input
state). -/
def applyOp (maps : MapsFn) : DriverOp → World → World
  | .updateOnline i b, w => (updateOnlineStatus i b w).1
  | .accept i bid, w => (acceptBooking maps i bid w).1
  | .complete now i bid, w => (completeTrip now i bid w).1
  | .logout i, w => (logoutDriver i w).1

/-- `isAvailable` and `isOnTrip` are not simultaneously `true`. -/
def flagsMutex (d : Driver) : Prop :=
  d.isAvailable = false ∨ d.isOnTrip = false

/-! ### Spec-side fare definitions (for the refinement claims) -/

/-- The fare formula exactly as the claim words it: round-half-up on the
fare, then on the commission, with the commission percent defaulting to
20 only **when unset**. -/
def specFareClaimed (pricing : Pricing) (distanceKm pickupCharge : Rat) :
    FareBreakdown :=
  let fare := ⌊pricing.baseFare + distanceKm * pricing.perKmRate + pickupCharge + 1/2⌋
  let percent := pricing.commissionPercent.getD 20
  let commission := ⌊(fare : Rat) * percent / 100 + 1/2⌋
  ⟨fare, commission, fare - commission⟩

/-- The amended fare formula: identical to `specFareClaimed` except that
the commission percent also defaults to 20 when the rule stores the
value 0 (the `|| 20` in the source treats 0 as unset). -/
def specFareAmended (pricing : Pricing) (distanceKm pickupCharge : Rat) :
    FareBreakdown :=
  let fare := ⌊pricing.baseFare + distanceKm * pricing.perKmRate + pickupCharge + 1/2⌋
  let percent :=
    match pricing.commissionPercent with
    | none => (20 : Rat)
    | some c => if c = 0 then 20 else c
  let commission := ⌊(fare : Rat) * percent / 100 + 1/2⌋
  ⟨fare, commission, fare - commission⟩

/-! ### Concrete fixtures -/

/-- A constant distance lookup: 2 km, 5 minutes. -/
def maps25 : MapsFn := fun _ _ _ _ => ((2 : Rat), (5 : Rat))

/-- A haversine stub returning 0 km (always within the 50 m threshold). -/
def hav0 : HavFn := fun _ _ _ _ => 0

def bank0 : BankDetails := ⟨"B", "H", "111122223333", "IFSC0001"⟩

/-- A driver currently on a trip, with bank details and an empty wallet. -/
def drvOnTrip : Driver :=
  { isOnline := true, isAvailable := false, isOnTrip := true,
    walletBalance := 0, bankDetails := some bank0,
    currentLocation := some ⟨10, 20⟩ }

/-- An available online driver. -/
def drvFree : Driver :=
  { isOnline := true, isAvailable := true, isOnTrip := false,
    walletBalance := 0, bankDetails := some bank0,
    currentLocation := some ⟨10, 20⟩ }

/-- A booking in `TRIP_STARTED`, assigned to driver 1, 10 km trip,
pickup charge 20. -/
def bkStarted : Booking :=
  { id := 7, status := .TRIP_STARTED, driverId := some 1,
    pickupLocation := ⟨10, 20⟩, dropLocation := ⟨11, 21⟩,
    vehicleType := "bike", distanceKm := 10, pickupCharge := some 20,
    driverToPickupDistanceKm := some 2, driverToPickupEtaMin := some 5,
    pickupToDropEtaMin := some 30, remainingDistanceKm := some 10,
    tripStartTime := some 0, tripEndTime := none,
    arrivedAtPickupAt := some 100, fareFinalizedAt := none,
    finalFare := none, driverEarning := none, platformCommission := none,
    actualDurationMin := none, paymentMethod := .UNSET,
    paymentStatus := .NONE, rejectedDrivers := [] }

/-- A booking still awaiting a driver. -/
def bkAwaiting : Booking :=
  { bkStarted with
    status := .DRIVER_NOTIFIED,
    driverId := none,
    pickupCharge := none,
    driverToPickupDistanceKm := none,
    driverToPickupEtaMin := none,
    pickupToDropEtaMin := none,
    remainingDistanceKm := none,
    tripStartTime := none,
    arrivedAtPickupAt := none }

/-- The active bike pricing rule: base 50, 12 per km, commission unset. -/
def prBike : Pricing := ⟨"bike", true, 50, 12, none⟩

/-- A pricing rule whose commission percent is stored as 0. -/
def prZero : Pricing := ⟨"bike", true, 50, 12, some 0⟩

/-- World for the wallet-conservation trace: driver 1 mid-trip, the
active pricing rule present, no withdrawals yet. -/
def wTrip : World :=
  { drivers := [(1, drvOnTrip)], booking := some bkStarted,
    pricings := [prBike], withdrawals := [], nextWithdrawId := 0 }

/-- After `completeTrip`: wallet credited with the 152 earning. -/
def wPaid : World := (completeTrip 60000 1 7 wTrip).1

/-- After `requestWithdrawal 50`: wallet debited to 102, withdrawal 0 pending. -/
def wRequested : World := (requestWithdrawal 1 50 wPaid).1

/-- After `rejectWithdrawal`: withdrawal rejected, wallet untouched at 102. -/
def wRejected : World := (rejectWithdrawal 0 wRequested).1

/-- After `approveWithdrawal` instead: wallet debited again to 52. -/
def wApproved : World := (approveWithdrawal 0 wRequested).1

/-- World for the accept race: two available drivers, one awaiting booking. -/
def wRace : World :=
  { drivers := [(1, drvFree), (2, drvFree)], booking := some bkAwaiting,
    pricings := [prBike], withdrawals := [], nextWithdrawId := 0 }

/-- Both accept threads poised at their first step. -/
def raceInit : CState := ⟨wRace, ⟨1, 7, .toCheck⟩, ⟨2, 7, .toCheck⟩⟩

/-- The interleaving: check₁, check₂, save₁, save₂, mark₁, mark₂. -/
def raceRun : CState :=
  runSched maps25 [true, false, true, false, true, false] raceInit

/-- World for the flag-invariant counterexample: driver 1 free, booking
awaiting. -/
def wFlags : World :=
  { drivers := [(1, drvFree)], booking := some bkAwaiting,
    pricings := [prBike], withdrawals := [], nextWithdrawId := 0 }

/-- Driver 1 accepts the booking: `isAvailable=false, isOnTrip=true`. -/
def wFlagsAccepted : World := (acceptBooking maps25 1 7 wFlags).1

/-- Driver 1 then posts `updateOnlineStatus(isOnline=true)` mid-trip. -/
def wFlagsOnline : World := (updateOnlineStatus 1 true wFlagsAccepted).1

/-- `wTrip` with no pricing rules at all. -/
def wNoPricing : World := { wTrip with pricings := [] }

/-- `wTrip` with no booking document at all. -/
def wNB : World := { wTrip with booking := none }

/-! ### Helper lemmas -/

/-- Looking a driver up after an in-place update: the updated document is
returned for the updated id, every other lookup is unchanged. -/
theorem findD_updD (l : List (Nat × Driver)) (i j : Nat) (f : Driver → Driver) :
    findD (updD l i f) j = if j = i then (findD l j).map f else findD l j := by
  induction l with
  | nil => simp [findD, updD]
  | cons p t ih =>
    simp only [findD, updD, List.map_cons] at ih ⊢
    by_cases hpi : p.1 = i
    · subst hpi
      by_cases hpj : p.1 = j
      · subst hpj
        rw [if_pos rfl, List.find?_cons_of_pos _ (by simp),
            List.find?_cons_of_pos _ (by simp), if_pos rfl]
        simp
      · rw [if_pos rfl, List.find?_cons_of_neg _ (by simpa using hpj),
            List.find?_cons_of_neg _ (by simpa using hpj)]
        exact ih
    · by_cases hpj : p.1 = j
      · subst hpj
        have hji : ¬ (p.1 = i) := hpi
        rw [if_neg hpi, List.find?_cons_of_pos _ (by simp),
            List.find?_cons_of_pos _ (by simp), if_neg hji]
      · rw [if_neg hpi, List.find?_cons_of_neg _ (by simpa using hpj),
            List.find?_cons_of_neg _ (by simpa using hpj)]
        exact ih

theorem findDriver_updateDriver (w : World) (i j : Nat) (f : Driver → Driver) :
    findDriver (updateDriver w i f) j =
      if j = i then (findDriver w j).map f else findDriver w j :=
  findD_updD w.drivers i j f

/-- Mutual exclusion of the availability flags survives an in-place driver
update whose update function yields flag-exclusive documents. -/
theorem flagsMutex_findD_updD (l : List (Nat × Driver)) (i j : Nat)
    (f : Driver → Driver) (d : Driver)
    (hInv : ∀ k e, findD l k = some e → flagsMutex e)
    (hf : ∀ e, findD l i = some e → flagsMutex (f e))
    (hj : findD (updD l i f) j = some d) : flagsMutex d := by
  rw [findD_updD] at hj
  by_cases hji : j = i
  · rw [if_pos hji] at hj
    subst hji
    cases hfj : findD l j with
    | none => rw [hfj] at hj; simp at hj
    | some e =>
      rw [hfj] at hj
      simp only [Option.map_some'] at hj
      cases hj
      exact hf e hfj
  · rw [if_neg hji] at hj
    exact hInv j d hj

/-! ### Claim theorems -/

/-- Claim C1 — money conservation of the wallet ledger fails on the code.
Failing trace: one completed trip credits the wallet with 152; then
`requestWithdrawal 50` debits the wallet to 102 (and leaves a `PENDING`
record of 50, so at that point approved + balance + pending = 152 still
holds); but `rejectWithdrawal` performs no re-credit, leaving approved
(0) + balance (102) + pending (0) = 102 ≠ 152, and the alternative
`approveWithdrawal` debits a *second* time, leaving approved (50) +
balance (52) + pending (0) = 102 ≠ 152.  In particular a withdrawal that
is requested and then rejected drops the eventual spendable balance from
152 to 102. -/
theorem wallet_conservation_violated :
    (completeTrip 60000 1 7 wTrip).2 = .ok ⟨190, 38, 152⟩ ∧
    (findDriver wPaid 1).map Driver.walletBalance = some 152 ∧
    (requestWithdrawal 1 50 wPaid).2 = .ok 0 ∧
    (findDriver wRequested 1).map Driver.walletBalance = some 102 ∧
    approvedSum wRequested + 102 + pendingSum wRequested = 152 ∧
    (rejectWithdrawal 0 wRequested).2 = .ok () ∧
    (findDriver wRejected 1).map Driver.walletBalance = some 102 ∧
    approvedSum wRejected = 0 ∧ pendingSum wRejected = 0 ∧
    approvedSum wRejected + 102 + pendingSum wRejected ≠ 152 ∧
    (approveWithdrawal 0 wRequested).2 = .ok () ∧
    (findDriver wApproved 1).map Driver.walletBalance = some 52 ∧
    approvedSum wApproved = 50 ∧ pendingSum wApproved = 0 ∧
    approvedSum wApproved + 52 + pendingSum wApproved ≠ 152 := by
  have hacct : ¬ (("111122223333" : String) = "") := by decide
  refine ⟨?_, ?_, ?_, ?_, ?_, ?_, ?_, ?_, ?_, ?_, ?_, ?_, ?_, ?_, ?_⟩ <;>
    norm_num [completeTrip, requestWithdrawal, rejectWithdrawal, approveWithdrawal,
      wTrip, wPaid, wRequested, wRejected, wApproved, bkStarted, prBike, drvOnTrip,
      bank0, activePricing, computeFare, jsRound, List.find?, updateDriver, updD,
      findDriver, findD, approvedSum, pendingSum, hacct]

/-- Claim C2, counterexample — two `acceptBooking` calls on the same
`AWAITING_DRIVER` booking interleaved at the method's own await points
(check₁, check₂, save₁, save₂, mark₁, mark₂) BOTH return success and BOTH
drivers end with `isOnTrip = true`: the status check is not part of the
update that writes the new status, so the claimed single-winner property
is false. -/
theorem accept_race_counterexample :
    raceRun.t1.phase = .finished (.ok ()) ∧
    raceRun.t2.phase = .finished (.ok ()) ∧
    (findDriver raceRun.w 1).map Driver.isOnTrip = some true ∧
    (findDriver raceRun.w 2).map Driver.isOnTrip = some true ∧
    ¬ ((raceRun.t1.phase = .finished (.ok ())) ↔
        ¬ (raceRun.t2.phase = .finished (.ok ()))) := by
  refine ⟨?_, ?_, ?_, ?_, ?_⟩ <;>
    norm_num [raceRun, raceInit, runSched, schedStep, acceptStep, wRace, bkAwaiting,
      bkStarted, drvFree, bank0, maps25, calculatePickupCharge, findDriver, findD,
      updateDriver, updD, List.find?]

/-- Claim C2, amended — only when the two `Accept` calls do not overlap
does the claimed outcome hold: the first call succeeds, the second fails
with `BookingUnavailable` and changes nothing, and exactly the first
driver ends with `isOnTrip = true`. -/
theorem accept_sequential_single_winner (maps : MapsFn) (d1 d2 bid : Nat)
    (w : World) (b : Booking) (dr1 dr2 : Driver) (loc1 : LatLng)
    (hb : w.booking = some b) (hbid : b.id = bid)
    (hst : b.status = .DRIVER_NOTIFIED)
    (hd1 : findDriver w d1 = some dr1) (hav1 : dr1.isAvailable = true)
    (hloc1 : dr1.currentLocation = some loc1)
    (hd2 : findDriver w d2 = some dr2) (hot2 : dr2.isOnTrip = false)
    (hne : d2 ≠ d1) :
    (acceptBooking maps d1 bid w).2 = .ok () ∧
    (acceptBooking maps d2 bid (acceptBooking maps d1 bid w).1).2 =
      .error .BookingUnavailable ∧
    (acceptBooking maps d2 bid (acceptBooking maps d1 bid w).1).1 =
      (acceptBooking maps d1 bid w).1 ∧
    (findDriver (acceptBooking maps d1 bid w).1 d1).map Driver.isOnTrip = some true ∧
    (findDriver (acceptBooking maps d1 bid w).1 d2).map Driver.isOnTrip = some false := by
  simp only [findDriver] at hd1 hd2 ⊢
  simp only [acceptBooking]
  simp [findDriver, findD_updD, updateDriver, hb, hbid, hst, hd1, hav1, hloc1,
    hd2, hot2, hne]

/-- Claim C2, witness for the amended theorem at a concrete world. -/
theorem accept_sequential_single_winner_witness :
    (acceptBooking maps25 1 7 wRace).2 = .ok () ∧
    (acceptBooking maps25 2 7 (acceptBooking maps25 1 7 wRace).1).2 =
      .error .BookingUnavailable :=
  let h := accept_sequential_single_winner maps25 1 2 7 wRace bkAwaiting
    drvFree drvFree ⟨10, 20⟩ rfl rfl rfl rfl rfl rfl rfl rfl (by decide)
  ⟨h.1, h.2.1⟩

/-- Claim C3 — `completeTrip` is not re-appliable: whenever a call
succeeds (booking found with matching driver in `TRIP_STARTED`, an active
pricing rule present), the completed booking no longer satisfies the
`TRIP_STARTED` precondition, so any second call fails with
`InvalidTrip` and changes nothing, and the wallet holds exactly one
credit of `driverEarning`. -/
theorem completeTrip_not_reappliable (now now2 d d2 bid : Nat) (w : World)
    (b : Booking) (p : Pricing) (hb : w.booking = some b) (hid : b.id = bid)
    (hdid : b.driverId = some d) (hst : b.status = .TRIP_STARTED)
    (hpr : activePricing w b.vehicleType = some p) :
    ∃ fb : FareBreakdown,
      (completeTrip now d bid w).2 = .ok fb ∧
      completeTrip now2 d2 bid (completeTrip now d bid w).1 =
        ((completeTrip now d bid w).1, .error .InvalidTrip) ∧
      (findDriver (completeTrip now d bid w).1 d).map Driver.walletBalance =
        (findDriver w d).map
          (fun dr => dr.walletBalance + (fb.driverEarning : Rat)) := by
  refine ⟨computeFare p b.distanceKm (b.pickupCharge.getD 0), ?_, ?_, ?_⟩
  · simp [completeTrip, hb, hid, hdid, hst, hpr]
  · simp [completeTrip, hb, hid, hdid, hst, hpr, updateDriver]
  · simp [completeTrip, hb, hid, hdid, hst, hpr, findDriver, findD_updD,
      updateDriver]
    cases hfd : findD w.drivers d <;> simp [hfd]

/-- Claim C3, witness: re-completing the already-completed trip of
`wPaid` fails with `InvalidTrip` and leaves the world unchanged. -/
theorem completeTrip_not_reappliable_witness :
    completeTrip 0 1 7 wPaid = (wPaid, .error .InvalidTrip) := by
  obtain ⟨fb, h1, h2, h3⟩ := completeTrip_not_reappliable 60000 0 1 1 7 wTrip
    bkStarted prBike rfl rfl rfl rfl rfl
  exact h2

/-- Claim C4, counterexample — after driver 1 accepts a booking
(`isAvailable=false, isOnTrip=true`), a `updateOnlineStatus(isOnline=true)`
call sets `isAvailable := true` without touching `isOnTrip`, leaving BOTH
flags true, which the claim says can never happen. -/
theorem flags_mutex_counterexample :
    (findDriver wFlagsOnline 1).map (fun d => (d.isAvailable, d.isOnTrip)) =
      some (true, true) := by
  norm_num [wFlagsOnline, wFlagsAccepted, wFlags, acceptBooking,
    updateOnlineStatus, maps25, bkAwaiting, bkStarted, drvFree, bank0,
    calculatePickupCharge, findDriver, findD, updateDriver, updD, List.find?]

/-- Claim C4, amended — `acceptBooking`, `completeTrip` and `logoutDriver`
always preserve mutual exclusion of `isAvailable` and `isOnTrip`, and
`updateOnlineStatus` preserves it except in the one case the
counterexample exhibits: going online (`isOnline=true`) while the driver
is on a trip. -/
theorem flags_mutex_preserved (maps : MapsFn) (op : DriverOp) (w : World)
    (hInv : ∀ i d, findDriver w i = some d → flagsMutex d)
    (hExc : ∀ i, op = .updateOnline i true →
        ∀ d, findDriver w i = some d → d.isOnTrip = false) :
    ∀ j d, findDriver (applyOp maps op w) j = some d → flagsMutex d := by
  intro j d hj
  simp only [findDriver] at hInv hj hExc
  cases op with
  | updateOnline i b =>
    unfold applyOp updateOnlineStatus at hj
    cases hfi : findD w.drivers i with
    | none => simp only [findDriver, hfi] at hj; exact hInv j d hj
    | some di =>
      simp only [findDriver, hfi] at hj
      by_cases hcl : b = true ∧ di.currentLocation = none
      · rw [if_pos hcl] at hj
        exact hInv j d hj
      · rw [if_neg hcl] at hj
        simp only [updateDriver] at hj
        refine flagsMutex_findD_updD w.drivers i j _ d hInv ?_ hj
        intro e he
        cases b with
        | false => exact Or.inl rfl
        | true =>
          refine Or.inr ?_
          have := hExc i rfl e he
          simpa using this
  | accept i bid =>
    unfold applyOp acceptBooking at hj
    cases hwb : w.booking with
    | none => simp only [hwb] at hj; exact hInv j d hj
    | some b =>
      simp only [hwb] at hj
      split at hj
      · exact hInv j d hj
      · split at hj
        · exact hInv j d hj
        · simp only [findDriver] at hj
          cases hfi : findD w.drivers i with
          | none => simp only [hfi] at hj; exact hInv j d hj
          | some di =>
            simp only [hfi] at hj
            by_cases hav : ¬ di.isAvailable = true
            · rw [if_pos hav] at hj
              exact hInv j d hj
            · rw [if_neg hav] at hj
              cases hloc : di.currentLocation with
              | none => simp only [hloc] at hj; exact hInv j d hj
              | some loc =>
                simp only [hloc, updateDriver] at hj
                refine flagsMutex_findD_updD _ i j _ d hInv ?_ hj
                intro e _
                exact Or.inl rfl
  | complete now i bid =>
    unfold applyOp completeTrip at hj
    cases hwb : w.booking with
    | none => simp only [hwb] at hj; exact hInv j d hj
    | some b =>
      simp only [hwb] at hj
      split at hj
      · cases hpr : activePricing w b.vehicleType with
        | none => rw [hpr] at hj; exact hInv j d hj
        | some pricing =>
          rw [hpr] at hj
          simp only [updateDriver] at hj
          refine flagsMutex_findD_updD _ i j _ d ?_ ?_ hj
          · intro k e hk
            refine flagsMutex_findD_updD _ i k _ e hInv ?_ hk
            intro e' _
            exact Or.inr rfl
          · intro e he
            rw [findD_updD, if_pos rfl] at he
            cases hfe : findD w.drivers i with
            | none => rw [hfe] at he; simp at he
            | some e0 =>
              rw [hfe] at he
              simp only [Option.map_some'] at he
              cases he
              exact Or.inr rfl
      · exact hInv j d hj
  | logout i =>
    unfold applyOp logoutDriver at hj
    simp only [updateDriver] at hj
    refine flagsMutex_findD_updD _ i j _ d hInv ?_ hj
    intro e _
    exact Or.inl rfl

/-- Claim C4, witness for the amended theorem: logging driver 1 out of
`wTrip` keeps the flags mutually exclusive. -/
theorem flags_mutex_preserved_witness :
    flagsMutex { drvOnTrip with isOnline := false, isAvailable := false } := by
  refine flags_mutex_preserved maps25 (.logout 1) wTrip ?_ ?_ 1
    { drvOnTrip with isOnline := false, isAvailable := false } rfl
  · intro i d h
    by_cases hi : i = 1
    · subst hi
      rw [show findDriver wTrip 1 = some drvOnTrip from rfl] at h
      cases h
      exact Or.inl rfl
    · have hi' : ¬ ((1 : Nat) = i) := fun hh => hi hh.symm
      rw [show findDriver wTrip i = findD [(1, drvOnTrip)] i from rfl] at h
      simp [findD, List.find?_cons, hi'] at h
  · intro i heq
    cases heq

/-- Claim C5 — when the booking is in `TRIP_STARTED` with the matching
driver but no active pricing rule exists for its vehicle type,
`completeTrip` fails with `PricingNotFound` and returns the world
entirely unchanged (booking, driver flags, wallet, withdrawals). -/
theorem completeTrip_pricing_missing (now d bid : Nat) (w : World) (b : Booking)
    (hb : w.booking = some b) (hid : b.id = bid) (hdid : b.driverId = some d)
    (hst : b.status = .TRIP_STARTED)
    (hpr : activePricing w b.vehicleType = none) :
    completeTrip now d bid w = (w, .error .PricingNotFound) := by
  simp [completeTrip, hb, hid, hdid, hst, hpr]

/-- Claim C5, witness at a concrete world with no pricing rules. -/
theorem completeTrip_pricing_missing_witness :
    completeTrip 0 1 7 wNoPricing = (wNoPricing, .error .PricingNotFound) :=
  completeTrip_pricing_missing 0 1 7 wNoPricing bkStarted rfl rfl rfl rfl rfl

/-- Claim C6, counterexample — the claim's formula (commission percent
defaults to 20 only when **unset**) disagrees with the code on a rule that
stores commission percent 0: the code's `|| 20` also treats 0 as unset,
yielding commission 38 where the claimed formula yields 0. -/
theorem fare_engine_claim_counterexample :
    computeFare prZero 10 20 = ⟨190, 38, 152⟩ ∧
    specFareClaimed prZero 10 20 = ⟨190, 0, 190⟩ ∧
    computeFare prZero 10 20 ≠ specFareClaimed prZero 10 20 := by
  refine ⟨?_, ?_, ?_⟩ <;>
    norm_num [computeFare, specFareClaimed, prZero, jsRound]

/-- Claim C6, amended — the fare computation equals the claimed formula
with the default widened to "unset **or zero**": `finalFare` is the
round-half-up of `base + distance × rate + pickupCharge`, commission is
the round-half-up of `finalFare × percent / 100`, `driverEarning` is
their difference; and the claim's concrete instance
`base=50, rate=12, distance=10, pickupCharge=20` gives
`finalFare=190, commission=38, driverEarning=152`. -/
theorem fare_engine_amended :
    (∀ pricing : Pricing, ∀ distanceKm pickupCharge : Rat,
      computeFare pricing distanceKm pickupCharge =
        specFareAmended pricing distanceKm pickupCharge) ∧
    computeFare prBike 10 20 = ⟨190, 38, 152⟩ := by
  constructor
  · intro pricing d p
    cases hc : pricing.commissionPercent <;>
      simp [computeFare, specFareAmended, jsRound, hc]
  · norm_num [computeFare, prBike, jsRound]

/-- Claim C7 — `calculatePickupCharge` is exactly the claimed step
function of the driver→pickup distance (10 up to 3 km, 20 up to 5 km,
40 up to 50 km, 50 beyond), including all six boundary instances named
by the claim. -/
theorem pickup_charge_tiering :
    (∀ d : Rat,
      (d ≤ 3 → calculatePickupCharge d = 10) ∧
      (3 < d → d ≤ 5 → calculatePickupCharge d = 20) ∧
      (5 < d → d ≤ 50 → calculatePickupCharge d = 40) ∧
      (50 < d → calculatePickupCharge d = 50)) ∧
    calculatePickupCharge 3 = 10 ∧
    calculatePickupCharge (301/100) = 20 ∧
    calculatePickupCharge 5 = 20 ∧
    calculatePickupCharge (501/100) = 40 ∧
    calculatePickupCharge 50 = 40 ∧
    calculatePickupCharge (5001/100) = 50 := by
  constructor
  · intro d
    refine ⟨?_, ?_, ?_, ?_⟩ <;>
      (intros ; unfold calculatePickupCharge ; split_ifs <;> first | rfl | linarith)
  · refine ⟨?_, ?_, ?_, ?_, ?_, ?_⟩ <;> norm_num [calculatePickupCharge]

/-- Claim C7, witness: the 3.01 km tier boundary. -/
theorem pickup_charge_tiering_witness :
    calculatePickupCharge (301/100) = 20 :=
  (pickup_charge_tiering.1 (301/100)).2.1 (by norm_num) (by norm_num)

/-- Claim C8 — the proximity latch: once `arrivedAtPickupAt` is set on the
booking, any later `updateLocation` call (for any haversine result, any
coordinates, any time) leaves it exactly as it was. -/
theorem arrival_latch (hav : HavFn) (driverId : Nat) (lat lng : Rat)
    (now t : Nat) (w : World) (b : Booking) (hb : w.booking = some b)
    (hset : b.arrivedAtPickupAt = some t) :
    ((updateLocation hav driverId lat lng now w).1.booking).map
        Booking.arrivedAtPickupAt = some (some t) := by
  unfold updateLocation
  simp only [updateDriver, hb]
  split <;> simp [hset, hb]

/-- Claim C8, witness: a later update at distance 0 from the pickup point
does not overwrite the existing stamp. -/
theorem arrival_latch_witness :
    ((updateLocation hav0 1 99 99 777 wTrip).1.booking).map
        Booking.arrivedAtPickupAt = some (some 100) :=
  arrival_latch hav0 1 99 99 777 100 wTrip bkStarted rfl rfl

/-- Claim C9 — a negative requested amount passes the
`walletBalance < amount` guard (for any non-negative balance), so
`requestWithdrawal` succeeds, *increases* the wallet by `|amount|`, and
records a `PENDING` withdrawal with the negative amount: money is minted
into the wallet. -/
theorem negative_withdrawal_mints (w : World) (driverId : Nat) (amount : Rat)
    (d : Driver) (bd : BankDetails)
    (hd : findDriver w driverId = some d) (hbd : d.bankDetails = some bd)
    (hacct : ¬ (bd.bankAccountNumber = "")) (hneg : amount < 0)
    (hbal : 0 ≤ d.walletBalance) :
    (requestWithdrawal driverId amount w).2 = .ok w.nextWithdrawId ∧
    (findDriver (requestWithdrawal driverId amount w).1 driverId).map
        Driver.walletBalance = some (d.walletBalance - amount) ∧
    d.walletBalance < d.walletBalance - amount ∧
    (requestWithdrawal driverId amount w).1.withdrawals =
      w.withdrawals ++ [⟨w.nextWithdrawId, driverId, amount, .PENDING⟩] := by
  simp only [findDriver] at hd
  have hlt : ¬ (d.walletBalance < amount) := by linarith
  refine ⟨?_, ?_, ?_, ?_⟩
  · simp [requestWithdrawal, findDriver, hd, hbd, hacct, hlt]
  · simp [requestWithdrawal, findDriver, hd, hbd, hacct, hlt, findD_updD,
      updateDriver]
  · linarith
  · simp [requestWithdrawal, findDriver, hd, hbd, hacct, hlt, updateDriver]

/-- Claim C9, witness: requesting −5 from a zero-balance driver succeeds
and leaves the wallet at 5. -/
theorem negative_withdrawal_mints_witness :
    (requestWithdrawal 1 (-5) wTrip).2 = .ok 0 ∧
    (findDriver (requestWithdrawal 1 (-5) wTrip).1 1).map Driver.walletBalance =
      some 5 := by
  have h := negative_withdrawal_mints wTrip 1 (-5) drvOnTrip bank0 rfl rfl
    (by decide) (by norm_num) (by norm_num [drvOnTrip])
  refine ⟨h.1, ?_⟩
  rw [h.2.1]
  norm_num [drvOnTrip]

/-- Claim C10 — `rejectBooking` returns the message `"Rejected"` for every
driver and booking id, including ids that match no booking (it has no
not-found failure path); when the booking matches it only extends
`rejectedDrivers` by set insertion (a no-op when the driver is already
present) and changes nothing else. -/
theorem rejectBooking_total (driverId bookingId : Nat) (w : World) :
    (rejectBooking driverId bookingId w).2 = "Rejected" ∧
    (rejectBooking driverId bookingId w).1.drivers = w.drivers ∧
    (rejectBooking driverId bookingId w).1.withdrawals = w.withdrawals ∧
    (rejectBooking driverId bookingId w).1.pricings = w.pricings ∧
    (w.booking = none → (rejectBooking driverId bookingId w).1 = w) ∧
    (∀ b, w.booking = some b → ¬ (b.id = bookingId) →
        (rejectBooking driverId bookingId w).1 = w) ∧
    (∀ b, w.booking = some b → b.id = bookingId →
        (rejectBooking driverId bookingId w).1.booking =
          some { b with rejectedDrivers :=
                  if driverId ∈ b.rejectedDrivers then b.rejectedDrivers
                  else b.rejectedDrivers ++ [driverId] } ∧
        (driverId ∈ b.rejectedDrivers →
          (rejectBooking driverId bookingId w).1 = w)) := by
  obtain ⟨ds, bk, ps, ws, n⟩ := w
  cases bk with
  | none => simp [rejectBooking]
  | some b =>
    by_cases hbid : b.id = bookingId
    · subst hbid
      by_cases hmem : driverId ∈ b.rejectedDrivers <;>
        simp [rejectBooking, hmem]
    · simp [rejectBooking, hbid]

/-- Claim C10, witness: rejecting a booking id that matches no booking
still answers `"Rejected"`. -/
theorem rejectBooking_total_witness :
    (rejectBooking 3 999 wNB).2 = "Rejected" :=
  (rejectBooking_total 3 999 wNB).1

end Porter
